import Mathlib

set_option maxRecDepth 100000

/-!
Verification development for the Thoughtful AI support-agent demo.

The definitions below are a shallow embedding of the two Python modules
`agent.py` and `app.py`: the static knowledge base, the two-pass lookup
tool `get_thoughtful_ai_info`, the credential check in `get_chat_model`,
the pydantic output schema `ResponseSchema`, and the Streamlit chat-input
handler that maintains the per-session message list.
-/

/-- One static question/answer pair of the knowledge base (a `QAEntry`). -/
structure QAEntry where
  question : String
  answer : String
deriving DecidableEq

/-- First knowledge-base entry (EVA, eligibility verification). -/
def entryEVA : QAEntry :=
  { question := "What does the eligibility verification agent (EVA) do?"
    answer := "EVA automates the process of verifying a patient’s eligibility and benefits information in real-time, eliminating manual data entry errors and reducing claim rejections." }

/-- Second knowledge-base entry (CAM, claims processing). -/
def entryCAM : QAEntry :=
  { question := "What does the claims processing agent (CAM) do?"
    answer := "CAM streamlines the submission and management of claims, improving accuracy, reducing manual intervention, and accelerating reimbursements." }

/-- Third knowledge-base entry (PHIL, payment posting). -/
def entryPHIL : QAEntry :=
  { question := "How does the payment posting agent (PHIL) work?"
    answer := "PHIL automates the posting of payments to patient accounts, ensuring fast, accurate reconciliation of payments and reducing administrative burden." }

/-- Fourth knowledge-base entry (overview of the agents). -/
def entryAgents : QAEntry :=
  { question := "Tell me about Thoughtful AI\x27s Agents."
    answer := "Thoughtful AI provides a suite of AI-powered automation agents designed to streamline healthcare processes. These include Eligibility Verification (EVA), Claims Processing (CAM), and Payment Posting (PHIL), among others." }

/-- Fifth knowledge-base entry (benefits). -/
def entryBenefits : QAEntry :=
  { question := "What are the benefits of using Thoughtful AI\x27s agents?"
    answer := "Using Thoughtful AI\x27s Agents can significantly reduce administrative costs, improve operational efficiency, and reduce errors in critical processes like claims management and payment posting." }

/-- The five entries of `THOUGHTFUL_AI_DATA["questions"]`, in declaration order. -/
def THOUGHTFUL_AI_DATA : List QAEntry :=
  [entryEVA, entryCAM, entryPHIL, entryAgents, entryBenefits]

/-- ASCII lowercasing of one character, as Python `str.lower` acts on the
ASCII range (all knowledge-base questions and the queries of interest are
ASCII apart from one U+2019, which `lower` leaves unchanged). -/
def pyLowerChar (c : Char) : Char :=
  if ('A' ≤ c ∧ c ≤ 'Z') then Char.ofNat (c.toNat + 32) else c

/-- Python `s.lower()` on the character list of a string. -/
def pyLower (s : String) : String :=
  String.mk (s.data.map pyLowerChar)

/-- Boolean prefix test on character lists. -/
def isPrefB : List Char → List Char → Bool
  | [], _ => true
  | _ :: _, [] => false
  | a :: as, b :: bs => a == b && isPrefB as bs

/-- Boolean contiguous-substring test on character lists. -/
def isSubB : List Char → List Char → Bool
  | needle, [] => needle.isEmpty
  | needle, c :: rest => isPrefB needle (c :: rest) || isSubB needle rest

/-- Python `needle in hay` on strings: contiguous substring occurrence. -/
def pyIn (needle hay : String) : Bool :=
  isSubB needle.data hay.data

/-- Python whitespace predicate for `str.split()` (ASCII whitespace). -/
def pyIsSpace (c : Char) : Bool :=
  c == ' ' || c == '\t' || c == '\n' || c == '\r' || c == '\x0b' || c == '\x0c'

/-- Accumulator worker for `pySplit`: splits at whitespace, drops empty pieces. -/
def wordsAux : List Char → List Char → List (List Char)
  | [], acc => if acc.isEmpty then [] else [acc.reverse]
  | c :: rest, acc =>
    if pyIsSpace c then
      if acc.isEmpty then wordsAux rest []
      else acc.reverse :: wordsAux rest []
    else wordsAux rest (c :: acc)

/-- Python `s.split()`: whitespace-delimited tokens, no empty tokens. -/
def pySplit (s : String) : List String :=
  (wordsAux s.data []).map String.mk

/-- Pass-1 match condition of `get_thoughtful_ai_info`: the (already
lowercased) query is a substring of the lowercased question, or vice versa. -/
def pass1MatchB (q : String) (item : QAEntry) : Bool :=
  pyIn q (pyLower item.question) || pyIn (pyLower item.question) q

/-- The pass-1 loop: first entry whose question matches wins; its answer is
returned. -/
def lookupPass1 : List QAEntry → String → Option String
  | [], _ => none
  | item :: rest, q =>
    if pass1MatchB q item then some item.answer else lookupPass1 rest q

/-- Pass-2 candidate condition: some whitespace token of the (lowercased)
query occurs as a substring of the lowercased question. -/
def tokenHitB (q : String) (item : QAEntry) : Bool :=
  (pySplit q).any (fun word => pyIn word (pyLower item.question))

/-- The pass-2 collection loop: entries whose question contains some query
token, in declaration order. -/
def pass2Candidates (q : String) : List QAEntry :=
  THOUGHTFUL_AI_DATA.filter (fun item => tokenHitB q item)

/-- Formatting of one pass-2 result block, `f"Q: ...\nA: ..."`. -/
def formatQA (item : QAEntry) : String :=
  "Q: " ++ item.question ++ "\nA: " ++ item.answer

/-- Python `sep.join(xs)`. -/
def pyJoin (sep : String) : List String → String
  | [] => ""
  | [x] => x
  | x :: y :: rest => x ++ sep ++ pyJoin sep (y :: rest)

/-- The not-found sentinel string. -/
def NOT_FOUND : String :=
  "No specific information found in the knowledge base."

/-- The knowledge-lookup tool `get_thoughtful_ai_info` of `agent.py`:
lowercase the query; pass 1 returns the first bidirectional-substring
match; otherwise pass 2 joins the first two token-hit blocks; otherwise
the sentinel. -/
def get_thoughtful_ai_info (query : String) : String :=
  let q := pyLower query
  match lookupPass1 THOUGHTFUL_AI_DATA q with
  | some ans => ans
  | none =>
    let results := (pass2Candidates q).map formatQA
    if !results.isEmpty then pyJoin "\n\n" (results.take 2)
    else NOT_FOUND

/-- A chat value of the pydantic/JSON layer, as pydantic sees a field
before validation: a string, a number (modelled as a rational, exact for
the values of interest), or a list. -/
inductive PyVal where
  | vstr (s : String)
  | vnum (q : ℚ)
  | vlist (xs : List PyVal)

/-- The validated `ResponseSchema` object of `agent.py`: answer text,
confidence score, reasoning steps. -/
structure ResponseSchema where
  answer : String
  confidence : ℚ
  reasoning : List String
deriving DecidableEq

/-- Reads a string field value. -/
def PyVal.asStr : PyVal → Option String
  | .vstr s => some s
  | _ => none

/-- Pydantic validation of `ResponseSchema`: `answer` must be a string,
`confidence` a number, `reasoning` a list of strings defaulting to `[]`
when absent. The `Field` declarations carry only descriptions, so no
further constraint is checked. -/
def responseSchemaValidate (answer confidence : PyVal) (reasoning : Option PyVal) :
    Option ResponseSchema :=
  match answer, confidence with
  | .vstr a, .vnum c =>
    match reasoning with
    | none => some { answer := a, confidence := c, reasoning := [] }
    | some (.vlist rs) =>
      match rs.mapM PyVal.asStr with
      | some ss => some { answer := a, confidence := c, reasoning := ss }
      | none => none
    | some _ => none
  | _, _ => none

/-- One `{role, content}` entry of the session message list. -/
structure ChatMsg where
  role : String
  content : String
deriving DecidableEq

/-- The chat-input handler of `app.py` for one turn: append the user
message to the session list, then call the agent; on success append the
assistant answer; on an exception show an inline error and append nothing
further. Returns the new message list and the displayed error, if any.
The outcome of `agent.invoke` is passed in as an `Except` value. -/
def handleChatTurn (messages : List ChatMsg) (prompt : String)
    (invokeResult : Except String ResponseSchema) :
    List ChatMsg × Option String :=
  let afterUser := messages ++ [{ role := "user", content := prompt }]
  match invokeResult with
  | .ok res => (afterUser ++ [{ role := "assistant", content := res.answer }], none)
  | .error e => (afterUser, some ("An error occurred: " ++ e))

/-- Several turns of the same session thread, folding the handler over a
list of (prompt, invoke outcome) pairs. -/
def runTurns (messages : List ChatMsg)
    (turns : List (String × Except String ResponseSchema)) : List ChatMsg :=
  turns.foldl (fun ms t => (handleChatTurn ms t.1 t.2).1) messages

/-- An environment / secret-store mapping, key to value. -/
def envGet (env : List (String × String)) (k : String) : Option String :=
  (env.find? (fun p => p.1 == k)).map Prod.snd

/-- Python `os.environ[k] = v`. -/
def envSet (env : List (String × String)) (k v : String) : List (String × String) :=
  if (env.find? (fun p => p.1 == k)).isSome then
    env.map (fun p => if p.1 == k then (k, v) else p)
  else env ++ [(k, v)]

/-- Python truthiness of `os.environ.get(k)`: `None` and the empty string
are falsy. -/
def truthy : Option String → Bool
  | none => false
  | some s => !(s == "")

/-- The Streamlit secret store as `get_chat_model` sees it: reading
`st.secrets` may raise (`FileNotFoundError`/`AttributeError`), which the
code treats as absence. -/
inductive SecretsResult where
  | unavailable
  | available (store : List (String × String))

/-- Whether the secret store is readable and holds the key. -/
def secretsHasKey : SecretsResult → String → Bool
  | .unavailable, _ => false
  | .available store, k => (envGet store k).isSome

/-- A performed `init_chat_model` call, recording its arguments. -/
structure ModelInit where
  model_name : String
  temperature : ℚ
  max_tokens : Nat
deriving DecidableEq

/-- `get_chat_model` of `agent.py`: if `GOOGLE_API_KEY` is falsy in the
environment, copy it from the secret store when present there; if it is
still falsy raise `ValueError` (the `.error` case), else call
`init_chat_model` (the `.ok` case). -/
def get_chat_model (env : List (String × String)) (secrets : SecretsResult)
    (model_name : String) (temperature : ℚ) (max_tokens : Nat) :
    Except String ModelInit :=
  let env1 :=
    if !(truthy (envGet env "GOOGLE_API_KEY")) then
      match secrets with
      | .unavailable => env
      | .available store =>
        match envGet store "GOOGLE_API_KEY" with
        | some v => envSet env "GOOGLE_API_KEY" v
        | none => env
    else env
  if !(truthy (envGet env1 "GOOGLE_API_KEY")) then
    Except.error "GOOGLE_API_KEY not found in environment variables or Streamlit secrets"
  else
    Except.ok { model_name := model_name, temperature := temperature, max_tokens := max_tokens }

/-- The pass-1 loop returns the answer of the first matching entry: when
some member of `l` matches, `l` splits as a non-matching front, the first
matching entry, and a tail, and the loop returns that entry's answer. -/
theorem lookupPass1_first (l : List QAEntry) (q : String) (e : QAEntry)
    (he : e ∈ l) (hm : pass1MatchB q e = true) :
    ∃ l₁ e₀ l₂, l = l₁ ++ e₀ :: l₂ ∧ pass1MatchB q e₀ = true ∧
      (∀ x ∈ l₁, pass1MatchB q x = false) ∧
      lookupPass1 l q = some e₀.answer := by
  induction l with
  | nil => cases he
  | cons a t ih =>
    by_cases h : pass1MatchB q a = true
    · exact ⟨[], a, t, rfl, h, by simp, by simp [lookupPass1, h]⟩
    · have h' : pass1MatchB q a = false := by
        cases hb : pass1MatchB q a
        · rfl
        · exact absurd hb h
      have he' : e ∈ t := by
        rcases List.mem_cons.mp he with rfl | h2
        · rw [hm] at h'; cases h'
        · exact h2
      obtain ⟨l₁, e₀, l₂, hl, hm₀, hnone, hres⟩ := ih he'
      refine ⟨a :: l₁, e₀, l₂, by rw [hl]; rfl, hm₀, ?_, ?_⟩
      · intro x hx
        rcases List.mem_cons.mp hx with rfl | hx'
        · exact h'
        · exact hnone x hx'
      · simpa [lookupPass1, h'] using hres

/-- Claim C2: for every query, if the lowercased query is a substring of
some entry's lowercased question or vice versa, then
`get_thoughtful_ai_info` returns the answer of the first such entry in
declaration order (earlier entries shadow later ones), via pass 1 and
without reaching pass 2. -/
theorem pass1_first_match_returned (q : String) (e : QAEntry)
    (he : e ∈ THOUGHTFUL_AI_DATA) (hm : pass1MatchB (pyLower q) e = true) :
    ∃ l₁ e₀ l₂, THOUGHTFUL_AI_DATA = l₁ ++ e₀ :: l₂ ∧
      pass1MatchB (pyLower q) e₀ = true ∧
      (∀ x ∈ l₁, pass1MatchB (pyLower q) x = false) ∧
      lookupPass1 THOUGHTFUL_AI_DATA (pyLower q) = some e₀.answer ∧
      get_thoughtful_ai_info q = e₀.answer := by
  obtain ⟨l₁, e₀, l₂, hl, hm₀, hnone, hres⟩ := lookupPass1_first _ _ _ he hm
  exact ⟨l₁, e₀, l₂, hl, hm₀, hnone, hres, by simp [get_thoughtful_ai_info, hres]⟩

/-- Witness for C2 at the literal second stored question, which pass 1
matches exactly. -/
theorem pass1_first_match_returned_witness :
    ∃ l₁ e₀ l₂, THOUGHTFUL_AI_DATA = l₁ ++ e₀ :: l₂ ∧
      pass1MatchB (pyLower "What does the claims processing agent (CAM) do?") e₀ = true ∧
      (∀ x ∈ l₁,
        pass1MatchB (pyLower "What does the claims processing agent (CAM) do?") x = false) ∧
      lookupPass1 THOUGHTFUL_AI_DATA
        (pyLower "What does the claims processing agent (CAM) do?") = some e₀.answer ∧
      get_thoughtful_ai_info "What does the claims processing agent (CAM) do?" = e₀.answer :=
  pass1_first_match_returned "What does the claims processing agent (CAM) do?" entryCAM
    (by decide) (by decide)

/-- Claim C3: with no pass-1 match, the candidate list is exactly the
entries with a token hit, kept in declaration order, and the result joins
the first at most two formatted blocks; with two or more candidates the
result is exactly the first two blocks. -/
theorem pass2_first_two_blocks (q : String)
    (h1 : lookupPass1 THOUGHTFUL_AI_DATA (pyLower q) = none) :
    (∀ e ∈ THOUGHTFUL_AI_DATA,
      (e ∈ pass2Candidates (pyLower q) ↔ tokenHitB (pyLower q) e = true)) ∧
    List.Sublist (pass2Candidates (pyLower q)) THOUGHTFUL_AI_DATA ∧
    (pass2Candidates (pyLower q) ≠ [] →
      get_thoughtful_ai_info q =
        pyJoin "\n\n" (((pass2Candidates (pyLower q)).take 2).map formatQA)) ∧
    (∀ c₁ c₂ rest, pass2Candidates (pyLower q) = c₁ :: c₂ :: rest →
      get_thoughtful_ai_info q = formatQA c₁ ++ "\n\n" ++ formatQA c₂) := by
  have hmain : pass2Candidates (pyLower q) ≠ [] →
      get_thoughtful_ai_info q =
        pyJoin "\n\n" (((pass2Candidates (pyLower q)).take 2).map formatQA) := by
    intro hne
    have hmap : ((pass2Candidates (pyLower q)).map formatQA).isEmpty = false := by
      cases hc : pass2Candidates (pyLower q) with
      | nil => exact absurd hc hne
      | cons a t => simp [hc]
    simp [get_thoughtful_ai_info, h1, hmap, List.map_take]
  refine ⟨?_, List.filter_sublist _, hmain, ?_⟩
  · intro e he
    simp [pass2Candidates, List.mem_filter, he]
  · intro c₁ c₂ rest hc
    have := hmain (by rw [hc]; exact List.cons_ne_nil _ _)
    rw [this, hc]
    simp [pyJoin]

/-- Witness for C3 at the query whose tokens hit four stored questions. -/
theorem pass2_first_two_blocks_witness :
    (∀ e ∈ THOUGHTFUL_AI_DATA,
      (e ∈ pass2Candidates (pyLower "what time is it") ↔
        tokenHitB (pyLower "what time is it") e = true)) ∧
    List.Sublist (pass2Candidates (pyLower "what time is it")) THOUGHTFUL_AI_DATA ∧
    (pass2Candidates (pyLower "what time is it") ≠ [] →
      get_thoughtful_ai_info "what time is it" =
        pyJoin "\n\n" (((pass2Candidates (pyLower "what time is it")).take 2).map formatQA)) ∧
    (∀ c₁ c₂ rest, pass2Candidates (pyLower "what time is it") = c₁ :: c₂ :: rest →
      get_thoughtful_ai_info "what time is it" = formatQA c₁ ++ "\n\n" ++ formatQA c₂) :=
  pass2_first_two_blocks "what time is it" (by decide)

/-- Claim C4: with no pass-1 match and no token of the lowercased query
occurring in any stored lowercased question, the result is the literal
not-found sentinel. -/
theorem no_hit_returns_sentinel (q : String)
    (h1 : lookupPass1 THOUGHTFUL_AI_DATA (pyLower q) = none)
    (h2 : ∀ e ∈ THOUGHTFUL_AI_DATA, tokenHitB (pyLower q) e = false) :
    get_thoughtful_ai_info q = NOT_FOUND := by
  have hcand : pass2Candidates (pyLower q) = [] := by
    apply List.filter_eq_nil_iff.mpr
    intro e he
    simp [h2 e he]
  simp [get_thoughtful_ai_info, h1, hcand]

/-- Witness for C4 at a query sharing no token with any stored question. -/
theorem no_hit_returns_sentinel_witness :
    get_thoughtful_ai_info "zzz qqq" = NOT_FOUND :=
  no_hit_returns_sentinel "zzz qqq" (by decide) (by decide)

/-- Counterexample to claim C1: for the literal query "What does EVA do?",
`get_thoughtful_ai_info` does not return the stored EVA answer verbatim. -/
theorem eva_query_counterexample :
    get_thoughtful_ai_info "What does EVA do?" ≠ entryEVA.answer := by decide

/-- Claim C1 as amended: "What does EVA do?" finds no pass-1 substring
match (the stored question interposes words); pass 2 collects the four
entries hit by a token and returns the first two blocks, the EVA entry
first. -/
theorem eva_query_pass2_result :
    lookupPass1 THOUGHTFUL_AI_DATA (pyLower "What does EVA do?") = none ∧
    pass2Candidates (pyLower "What does EVA do?") =
      [entryEVA, entryCAM, entryPHIL, entryBenefits] ∧
    get_thoughtful_ai_info "What does EVA do?" =
      formatQA entryEVA ++ "\n\n" ++ formatQA entryCAM :=
  ⟨by decide, by decide, by decide⟩

/-- Counterexample to claim C5: the query "what is the weather" does not
produce the not-found sentinel, because the tokens "what" and "the" occur
in stored questions. -/
theorem weather_query_counterexample :
    get_thoughtful_ai_info "what is the weather" ≠ NOT_FOUND := by decide

/-- Claim C5 as amended: "what is the weather" reaches pass 2 and returns
the first two token-hit blocks (EVA and CAM). -/
theorem weather_query_two_blocks :
    lookupPass1 THOUGHTFUL_AI_DATA (pyLower "what is the weather") = none ∧
    pass2Candidates (pyLower "what is the weather") =
      [entryEVA, entryCAM, entryPHIL, entryBenefits] ∧
    get_thoughtful_ai_info "what is the weather" =
      formatQA entryEVA ++ "\n\n" ++ formatQA entryCAM :=
  ⟨by decide, by decide, by decide⟩

/-- Claim C10: the empty query is a substring of every stored question, so
pass 1 matches the first entry and returns the EVA answer; the sentinel is
unreachable for it. -/
theorem empty_query_first_answer :
    get_thoughtful_ai_info "" = entryEVA.answer ∧
    get_thoughtful_ai_info "" ≠ NOT_FOUND :=
  ⟨by decide, by decide⟩

/-- Counterexample to claim C6: a turn whose model call fails does change
the session message list, because the user message is appended before the
call. -/
theorem error_turn_state_changed :
    (handleChatTurn [] "hi" (Except.error "boom")).1 ≠ ([] : List ChatMsg) := by
  decide

/-- Claim C6 as amended: when the model call raises, the exception is
caught and shown as an inline error, no assistant entry is appended, and
the only change of the turn is the user entry appended before the call. -/
theorem error_turn_keeps_user_message (messages : List ChatMsg) (prompt e : String) :
    (handleChatTurn messages prompt (Except.error e)).1 =
      messages ++ [{ role := "user", content := prompt }] ∧
    (handleChatTurn messages prompt (Except.error e)).2 =
      some ("An error occurred: " ++ e) :=
  ⟨rfl, rfl⟩

/-- Counterexample to claim C7: a response with confidence 2 passes
`ResponseSchema` validation, so the [0,1] bound is not schema-enforced. -/
theorem schema_confidence_counterexample :
    ∃ r : ResponseSchema,
      responseSchemaValidate (PyVal.vstr "ok") (PyVal.vnum 2) none = some r ∧
      ¬(0 ≤ r.confidence ∧ r.confidence ≤ 1) :=
  ⟨{ answer := "ok", confidence := 2, reasoning := [] }, rfl, by norm_num⟩

/-- Claim C7 as amended: `ResponseSchema` validation checks field types
only; the confidence field admits every numeric value, the [0,1] range
being stated only in the field description. -/
theorem schema_accepts_any_confidence (c : ℚ) :
    responseSchemaValidate (PyVal.vstr "ok") (PyVal.vnum c) none =
      some { answer := "ok", confidence := c, reasoning := [] } := rfl

/-- Claim C8: when `GOOGLE_API_KEY` is absent from the environment and
from the secret store, `get_chat_model` raises the configuration
`ValueError` and `init_chat_model` is never invoked. -/
theorem missing_key_raises (env : List (String × String)) (secrets : SecretsResult)
    (mn : String) (t : ℚ) (mt : Nat)
    (h1 : envGet env "GOOGLE_API_KEY" = none)
    (h2 : secretsHasKey secrets "GOOGLE_API_KEY" = false) :
    get_chat_model env secrets mn t mt =
      Except.error "GOOGLE_API_KEY not found in environment variables or Streamlit secrets" ∧
    ∀ m : ModelInit, get_chat_model env secrets mn t mt ≠ Except.ok m := by
  have htr : truthy (envGet env "GOOGLE_API_KEY") = false := by rw [h1]; rfl
  have herr : get_chat_model env secrets mn t mt =
      Except.error "GOOGLE_API_KEY not found in environment variables or Streamlit secrets" := by
    cases secrets with
    | unavailable => simp [get_chat_model, htr]
    | available store =>
      have hstore : envGet store "GOOGLE_API_KEY" = none :=
        Option.not_isSome_iff_eq_none.mp (by simpa [secretsHasKey] using h2)
      simp [get_chat_model, htr, hstore]
  refine ⟨herr, ?_⟩
  intro m
  rw [herr]
  intro hcontra
  cases hcontra

/-- Witness for C8 with an empty environment and no secrets file. -/
theorem missing_key_raises_witness :
    get_chat_model [] SecretsResult.unavailable
      "google_genai:gemini-2.5-flash-lite" (7/10) 1024 =
      Except.error "GOOGLE_API_KEY not found in environment variables or Streamlit secrets" ∧
    ∀ m : ModelInit,
      get_chat_model [] SecretsResult.unavailable
        "google_genai:gemini-2.5-flash-lite" (7/10) 1024 ≠ Except.ok m :=
  missing_key_raises [] SecretsResult.unavailable
    "google_genai:gemini-2.5-flash-lite" (7/10) 1024 (by decide) (by decide)

/-- Claim C9: every turn only appends new {role, content} entries at the
end of the session list, and across any sequence of turns the starting
history stays an unchanged prefix of the final history. -/
theorem history_append_only (messages : List ChatMsg)
    (turns : List (String × Except String ResponseSchema)) :
    (∀ (ms : List ChatMsg) (p : String) (r : Except String ResponseSchema),
      ∃ newEntries, (handleChatTurn ms p r).1 = ms ++ newEntries) ∧
    messages <+: runTurns messages turns := by
  have hstep : ∀ (ms : List ChatMsg) (p : String) (r : Except String ResponseSchema),
      ∃ newEntries, (handleChatTurn ms p r).1 = ms ++ newEntries := by
    intro ms p r
    cases r with
    | ok res =>
      exact ⟨[{ role := "user", content := p },
              { role := "assistant", content := res.answer }],
        by simp [handleChatTurn]⟩
    | error e => exact ⟨[{ role := "user", content := p }], rfl⟩
  refine ⟨hstep, ?_⟩
  induction turns generalizing messages with
  | nil => exact List.prefix_refl _
  | cons t ts ih =>
    obtain ⟨newEntries, hnew⟩ := hstep messages t.1 t.2
    have h1 : messages <+: (handleChatTurn messages t.1 t.2).1 := ⟨newEntries, hnew.symm⟩
    exact h1.trans (ih ((handleChatTurn messages t.1 t.2).1))
